import Mathlib

/-!
Shallow embedding of the SentinelAI ingestion-classification-delivery pipeline
(`src/tools/snort_connector.py`, `src/tools/db_connector.py`,
`src/app/models/ai/threat_classifier.py`, `src/app/api/endpoints/threats.py`)
together with theorems settling the frozen specification claims.

Strings are modelled as `List Char` internally (Python `str` over the ASCII
inputs the pipeline handles); timestamps are opaque strings supplied to each
operation as an explicit `now` argument; the three regular expressions of the
parser are embedded as specialized matchers reproducing Python `re.search`
semantics (leftmost search, lazy groups minimal-first, greedy digit runs) for
those concrete patterns.
-/

namespace SentinelAI

/-! ### Python string primitives -/

/-- Boolean prefix test on character lists. -/
def startsWithL : List Char → List Char → Bool
  | [], _ => true
  | _ :: _, [] => false
  | a :: as, b :: bs => a == b && startsWithL as bs

/-- Python `needle in haystack` substring test. -/
def containsSubL (needle : List Char) : List Char → Bool
  | [] => startsWithL needle []
  | c :: cs => startsWithL needle (c :: cs) || containsSubL needle cs

/-- Python whitespace set used by `str.strip()`. -/
def isPyWs (c : Char) : Bool :=
  c == ' ' || c == '\t' || c == '\n' || c == '\r' || c.toNat == 11 || c.toNat == 12

/-- Python `str.strip()`. -/
def pyStrip (l : List Char) : List Char :=
  ((l.dropWhile isPyWs).reverse.dropWhile isPyWs).reverse

/-- Python `str.lower()` on the ASCII alphabet. -/
def pyLower (l : List Char) : List Char := l.map Char.toLower

def splitOnCharAux (sep : Char) (cur : List Char) : List Char → List (List Char)
  | [] => [cur.reverse]
  | c :: cs =>
    if c == sep then cur.reverse :: splitOnCharAux sep [] cs
    else splitOnCharAux sep (c :: cur) cs

/-- Python `str.split(sep)` for a one-character separator. -/
def splitOnChar (sep : Char) (l : List Char) : List (List Char) :=
  splitOnCharAux sep [] l

/-- Python `str.split('\n')`. -/
def splitNl (l : List Char) : List (List Char) := splitOnChar '\n' l

def splitBlankAux (cur : List Char) : List Char → List (List Char)
  | [] => [cur.reverse]
  | '\n' :: '\n' :: rest => cur.reverse :: splitBlankAux [] rest
  | c :: rest => splitBlankAux (c :: cur) rest

/-- Python `str.split('\n\n')`: non-overlapping leftmost splitting on the
two-character separator. -/
def splitBlank (l : List Char) : List (List Char) := splitBlankAux [] l

/-- Numeric value of a run of decimal digits (Python `int`). -/
def natOfDigits (ds : List Char) : Nat :=
  ds.foldl (fun a c => 10 * a + (c.toNat - 48)) 0

/-- Python truthiness of an optional string: `None` and `""` are falsy. -/
def truthyS : Option String → Bool
  | none => false
  | some s => !s.isEmpty

/-! ### Specialized matchers for the three parser regexes

`re.search` tries each start position left to right; a lazy group (`.*?`) takes
the minimal number of characters (never `'\n'`) such that the rest of the
pattern matches, retrying with one more character on failure, which is exactly
the scan-for-exit loop below.  Greedy `\d+` / `[\d.]+` runs are followed in
the patterns only by characters outside their class, so maximal munch is the
regex semantics.
-/

/-- Leftmost search: try the position matcher at every suffix. -/
def searchL {α : Type} (p : List Char → Option α) : List Char → Option α
  | [] => p []
  | c :: cs =>
    match p (c :: cs) with
    | some r => some r
    | none => searchL p cs

/-- Lazy scan for the second group of `ALERT_PATTERN`
(`\[\*\*\] \[(.*?)\] (.*?) \[\*\*\]`): minimal run of non-newline characters
followed by the literal `" [**]"`. -/
def alertGrp2 (acc : List Char) : List Char → Option (List Char)
  | [] => if startsWithL (" [**]".toList) [] then some acc.reverse else none
  | c :: cs =>
    if startsWithL (" [**]".toList) (c :: cs) then some acc.reverse
    else if c == '\n' then none
    else alertGrp2 (c :: acc) cs

/-- Lazy scan for the first group of `ALERT_PATTERN`: minimal run followed by
`"] "` after which the second lazy group must complete the pattern. -/
def alertGrp1 (acc : List Char) : List Char → Option (List Char × List Char)
  | [] => none
  | c :: cs =>
    match
      (if startsWithL ("] ".toList) (c :: cs) then
        match alertGrp2 [] ((c :: cs).drop 2) with
        | some g2 => some (acc.reverse, g2)
        | none => none
      else none) with
    | some r => some r
    | none =>
      if c == '\n' then none
      else alertGrp1 (c :: acc) cs

/-- Position matcher for `ALERT_PATTERN`: literal `"[**] ["` then the two lazy
groups. Returns (group1, group2). -/
def alertAt (l : List Char) : Option (List Char × List Char) :=
  if startsWithL ("[**] [".toList) l then alertGrp1 [] (l.drop 6) else none

/-- Exit test for the lazy group of `CLASSIFICATION_PATTERN`
(`\[Classification: (.*?)\] \[Priority: (\d+)\]`): literal `"] [Priority: "`,
a nonempty greedy digit run, then `']'`. -/
def classExit (rest : List Char) : Option Nat :=
  if startsWithL ("] [Priority: ".toList) rest then
    let r2 := rest.drop 13
    let ds := r2.takeWhile Char.isDigit
    if ds.isEmpty then none
    else if (r2.drop ds.length).headD ' ' == ']' then some (natOfDigits ds)
    else none
  else none

/-- Lazy scan for the classification group. -/
def classScan (acc : List Char) : List Char → Option (List Char × Nat)
  | [] =>
    match classExit [] with
    | some n => some (acc.reverse, n)
    | none => none
  | c :: cs =>
    match classExit (c :: cs) with
    | some n => some (acc.reverse, n)
    | none =>
      if c == '\n' then none
      else classScan (c :: acc) cs

/-- Position matcher for `CLASSIFICATION_PATTERN`. Returns (label, priority). -/
def classAt (l : List Char) : Option (List Char × Nat) :=
  if startsWithL ("[Classification: ".toList) l then classScan [] (l.drop 17)
  else none

/-- Result of `IP_PATTERN`
(`(\d+/\d+-\d+:\d+:\d+\.\d+) ([\d\.]+):(\d+) -> ([\d\.]+):(\d+)`). -/
structure IpMatch where
  ts : List Char
  srcIp : List Char
  srcPort : Nat
  dstIp : List Char
  dstPort : Nat
  deriving Repr, DecidableEq

def expectC (c : Char) : List Char → Option (List Char)
  | [] => none
  | x :: xs => if x == c then some xs else none

def expectLit (lit : List Char) (l : List Char) : Option (List Char) :=
  if startsWithL lit l then some (l.drop lit.length) else none

/-- Greedy nonempty digit run. -/
def digits1 (l : List Char) : Option (List Char × List Char) :=
  let ds := l.takeWhile Char.isDigit
  if ds.isEmpty then none else some (ds, l.drop ds.length)

def isIpChar (c : Char) : Bool := c.isDigit || c == '.'

/-- Greedy nonempty run of `[\d.]`. -/
def ipChars1 (l : List Char) : Option (List Char × List Char) :=
  let ds := l.takeWhile isIpChar
  if ds.isEmpty then none else some (ds, l.drop ds.length)

/-- Greedy digit run followed by a required separator character. -/
def digitsThen (sep : Char) (l : List Char) : Option (List Char × List Char) :=
  match digits1 l with
  | none => none
  | some (ds, r) =>
    match expectC sep r with
    | none => none
    | some r2 => some (ds, r2)

/-- Timestamp part of `IP_PATTERN`: `\d+/\d+-\d+:\d+:\d+\.\d+`. -/
def tsAt (l : List Char) : Option (List Char × List Char) :=
  match digitsThen '/' l with
  | none => none
  | some (d1, r) =>
    match digitsThen '-' r with
    | none => none
    | some (d2, r) =>
      match digitsThen ':' r with
      | none => none
      | some (d3, r) =>
        match digitsThen ':' r with
        | none => none
        | some (d4, r) =>
          match digitsThen '.' r with
          | none => none
          | some (d5, r) =>
            match digits1 r with
            | none => none
            | some (d6, r) =>
              some (d1 ++ '/' :: d2 ++ '-' :: d3 ++ ':' :: d4 ++ ':' :: d5 ++ '.' :: d6, r)

/-- Endpoint part of `IP_PATTERN`: `[\d.]+:\d+`. -/
def hostPortAt (l : List Char) : Option (List Char × Nat × List Char) :=
  match ipChars1 l with
  | none => none
  | some (ip, r) =>
    match expectC ':' r with
    | none => none
    | some r2 =>
      match digits1 r2 with
      | none => none
      | some (p, r3) => some (ip, natOfDigits p, r3)

/-- Position matcher for `IP_PATTERN`. -/
def ipAt (l : List Char) : Option IpMatch :=
  match tsAt l with
  | none => none
  | some (ts, r) =>
    match expectC ' ' r with
    | none => none
    | some r2 =>
      match hostPortAt r2 with
      | none => none
      | some (sip, sp, r3) =>
        match expectLit (" -> ".toList) r3 with
        | none => none
        | some r4 =>
          match hostPortAt r4 with
          | none => none
          | some (dip, dp, _) =>
            some { ts := ts, srcIp := sip, srcPort := sp, dstIp := dip, dstPort := dp }

/-! ### SnortAlert (`snort_connector.py`, `SnortAlert`) -/

/-- Parsed Snort alert; every field except the raw log starts unset and is
filled only when its regex pass matches (`SnortAlert.__init__` /
`parse_alert`). -/
structure SnortAlert where
  rawLog : String
  timestamp : Option String := none
  signature : Option String := none
  signatureId : Option String := none
  signatureRev : Option String := none
  classification : Option String := none
  priority : Option Nat := none
  sourceIp : Option String := none
  sourcePort : Option Nat := none
  destIp : Option String := none
  destPort : Option Nat := none
  protocol : Option String := none
  deriving Repr, DecidableEq

/-- Protocol inference from the destination port (`parse_alert` lines
163-174). -/
def inferProtocol (dp : Nat) : String :=
  if dp == 80 || dp == 443 then (if dp == 80 then "HTTP" else "HTTPS")
  else if dp == 22 then "SSH"
  else if dp == 21 then "FTP"
  else if dp == 25 || dp == 587 then "SMTP"
  else "TCP"

/-- First parse pass (`parse_alert` lines 131-144): alert header with
signature name and sid/rev. -/
def parseStage1 (lines : List (List Char)) (a0 : SnortAlert) : SnortAlert :=
  match searchL alertAt (lines.headD []) with
  | none => a0
  | some (sidStr, sig) =>
    let base := { a0 with signature := some (String.mk sig) }
    let sidParts := splitOnChar ':' sidStr
    if sidParts.length ≥ 3 then
      { base with
          signatureId := some (String.mk (sidParts.getD 1 []))
          signatureRev := some (String.mk (sidParts.getD 2 [])) }
    else base

/-- Second parse pass (`parse_alert` lines 146-151): classification label and
priority from the second line, when present. -/
def parseStage2 (lines : List (List Char)) (a1 : SnortAlert) : SnortAlert :=
  match lines.get? 1 with
  | none => a1
  | some l1 =>
    match searchL classAt l1 with
    | none => a1
    | some (cls, pri) =>
      { a1 with classification := some (String.mk cls), priority := some pri }

/-- Third parse pass (`parse_alert` lines 153-174): timestamp, IPs, ports and
inferred protocol from the third line, when present. -/
def parseStage3 (lines : List (List Char)) (a2 : SnortAlert) : SnortAlert :=
  match lines.get? 2 with
  | none => a2
  | some l2 =>
    match searchL ipAt l2 with
    | none => a2
    | some m =>
      { a2 with
          timestamp := some (String.mk m.ts)
          sourceIp := some (String.mk m.srcIp)
          sourcePort := some m.srcPort
          destIp := some (String.mk m.dstIp)
          destPort := some m.dstPort
          protocol := some (inferProtocol m.dstPort) }

/-- Embedding of `SnortAlert.parse_alert`: strip, split into lines, and run
the three independent regex passes. -/
def parseSnortAlert (logEntry : String) : SnortAlert :=
  let lines := splitNl (pyStrip logEntry.toList)
  parseStage3 lines (parseStage2 lines (parseStage1 lines { rawLog := logEntry }))

/-! ### Behavior classification (`BEHAVIOR_MAPPING` / `BEHAVIOR_PATTERNS`) -/

/-- Static classification-label to behavior table (`BEHAVIOR_MAPPING`). -/
def behaviorMapping : List (String × String) :=
  [("Attempted Information Leak", "data_exfiltration"),
   ("Attempted User Privilege Gain", "privilege_escalation"),
   ("Web Application Attack", "web_attack"),
   ("Potential Corporate Privacy Violation", "data_exfiltration"),
   ("Executable Code was Detected", "malware"),
   ("A Network Trojan was Detected", "malware"),
   ("Attempted Denial of Service", "dos"),
   ("Attempted Administrator Privilege Gain", "privilege_escalation"),
   ("Successful Administrator Privilege Gain", "privilege_escalation"),
   ("Successful User Privilege Gain", "privilege_escalation"),
   ("Potentially Bad Traffic", "malware_c2"),
   ("Information Leak", "data_exfiltration"),
   ("Network Scan", "port_scan"),
   ("Suspicious Login", "brute_force"),
   ("Unknown Traffic", "suspicious_traffic"),
   ("Access to a Potentially Vulnerable Web Application", "web_attack"),
   ("Generic Protocol Command Decode", "protocol_violation")]

/-- One alternative of a fallback pattern: a sequence of lowercase character
sets that must match consecutively (the patterns contain no repetition
operators, so case-insensitive `re.search` is exactly this positional test). -/
def litSets (s : String) : List (List Char) := s.toList.map (fun c => [c])

/-- Test a sequence of character sets at the head of lowercased text. -/
def matchSetsAt : List (List Char) → List Char → Bool
  | [], _ => true
  | _ :: _, [] => false
  | s :: ss, c :: cs => s.contains c.toLower && matchSetsAt ss cs

def searchSets (p : List (List Char)) : List Char → Bool
  | [] => matchSetsAt p []
  | c :: cs => matchSetsAt p (c :: cs) || searchSets p cs

/-- Case-insensitive `re.search` of an alternation of fixed-shape
alternatives. -/
def reSearchCI (alts : List (List (List Char))) (hay : List Char) : Bool :=
  alts.any (fun p => searchSets p hay)

/-- Underscore-or-space character set used by the fallback patterns. -/
def usp : List Char := ['_', ' ']

/-- Ordered fallback signature-name patterns (`BEHAVIOR_PATTERNS`); first
match wins. -/
def behaviorPatterns : List (List (List (List Char)) × String) :=
  [([litSets "sql" ++ [usp] ++ litSets "injection"], "sql_injection"),
   ([litSets "xss", litSets "cross" ++ [['-', ' ']] ++ litSets "site"], "xss"),
   ([litSets "directory" ++ [usp] ++ litSets "traversal"], "path_traversal"),
   ([litSets "port" ++ [usp] ++ litSets "scan"], "port_scan"),
   ([litSets "brute" ++ [usp] ++ litSets "force"], "brute_force"),
   ([litSets "dos",
     litSets "denial" ++ [usp] ++ litSets "of" ++ [usp] ++ litSets "service"], "dos"),
   ([litSets "dns" ++ [usp] ++ litSets "tunnel"], "dns_tunneling"),
   ([litSets "command" ++ [usp] ++ litSets "injection"], "command_injection"),
   ([litSets "data" ++ [usp] ++ litSets "exfiltration"], "data_exfiltration"),
   ([litSets "malware"], "malware"),
   ([litSets "c2",
     litSets "command" ++ [usp] ++ litSets "and" ++ [usp] ++ litSets "control"], "malware_c2")]

/-- Behavior tag of an alert (`to_cybercare_threat` lines 178-189): direct
label lookup, then the ordered regex fallback over the signature name, then
`"unknown"`. -/
def behaviorOf (a : SnortAlert) : String :=
  if truthyS a.classification && (behaviorMapping.lookup (a.classification.getD "")).isSome then
    (behaviorMapping.lookup (a.classification.getD "")).getD "unknown"
  else if truthyS a.signature then
    match behaviorPatterns.find? (fun p => reSearchCI p.1 ((a.signature.getD "").toList)) with
    | some p => p.2
    | none => "unknown"
  else "unknown"

/-! ### ThreatData (the dict built by `to_cybercare_threat`) -/

/-- Threat record in CyberCare format as the connector builds and passes it
around. `to_cybercare_threat` puts no `id` key in the dict; ids appear only
when a caller adds one or `store_batch` generates one. -/
structure ThreatData where
  id : Option String := none
  sourceIp : Option String := none
  destinationIp : Option String := none
  protocol : Option String := none
  behavior : Option String := none
  timestamp : Option String := none
  payload : Option String := none
  additionalData : List (String × Option String) := []
  deriving Repr, DecidableEq

/-- Embedding of `SnortAlert.to_cybercare_threat`. -/
def toCybercareThreat (a : SnortAlert) : ThreatData :=
  { sourceIp := a.sourceIp
    destinationIp := a.destIp
    protocol := a.protocol
    behavior := some (behaviorOf a)
    timestamp := a.timestamp
    additionalData :=
      [("snort_signature_id", a.signatureId),
       ("snort_signature_name", a.signature),
       ("snort_classification", a.classification),
       ("snort_priority", a.priority.map toString),
       ("source_port", a.sourcePort.map toString),
       ("destination_port", a.destPort.map toString)] }

/-! ### Severity classifier (`threat_classifier.py`)

`data.get(k, '')` on a key the caller did not supply is modelled by
`Option.getD ""`; confidence floats are modelled by the rationals the source
literals denote. -/

def highIndicators : List String :=
  ["malware", "ransomware", "exploit", "attack", "vulnerability"]

def mediumIndicators : List String :=
  ["scan", "probe", "suspicious", "unusual", "admin"]

def lowIndicators : List String :=
  ["warning", "notice", "attempt", "failed"]

/-- Python `any(ind in payload or ind in behavior for ind in inds)`. -/
def containsAny (inds : List String) (payload behavior : List Char) : Bool :=
  inds.any (fun k => containsSubL k.toList payload || containsSubL k.toList behavior)

/-- Embedding of `ThreatClassifier._basic_threat_analysis`. -/
def basicThreatAnalysis (data : ThreatData) : String :=
  let payload := pyLower (data.payload.getD "").toList
  let behavior := pyLower (data.behavior.getD "").toList
  if containsAny highIndicators payload behavior then "HIGH"
  else if containsAny mediumIndicators payload behavior then "MEDIUM"
  else if containsAny lowIndicators payload behavior then "LOW"
  else "NORMAL"

/-- Embedding of `ThreatClassifier._identify_techniques`. -/
def identifyTechniques (data : ThreatData) : List String :=
  let payload := pyLower (data.payload.getD "").toList
  let behavior := pyLower (data.behavior.getD "").toList
  let protocol := pyLower (data.protocol.getD "").toList
  (if protocol == "http".toList && containsSubL "admin".toList payload then ["T1190"] else []) ++
  (if containsSubL "scan".toList behavior || containsSubL "scanning".toList behavior then ["T1046"] else []) ++
  (if containsSubL "select".toList payload && containsSubL "from".toList payload then ["T1190"] else []) ++
  (if containsSubL "brute".toList behavior || containsSubL "password".toList payload then ["T1110"] else []) ++
  (if containsSubL "execute".toList payload || containsSubL "cmd".toList payload || containsSubL "command".toList payload then ["T1059"] else [])

/-- Embedding of `ThreatClassifier.predict`. `isReady` is the model-loaded
flag after the `_load_model` attempt; `modelOutcome` is the outcome of the
oracle call when the model is ready (`none` models the call raising
mid-flight, which falls back to the heuristic with confidence 0.4). -/
def predict (isReady : Bool) (modelOutcome : Option (String × ℚ)) (data : ThreatData) :
    String × ℚ × List String :=
  let techniques := identifyTechniques data
  if !isReady then (basicThreatAnalysis data, (1 : ℚ) / 2, techniques)
  else
    match modelOutcome with
    | some (sev, conf) => (sev, conf, techniques)
    | none => (basicThreatAnalysis data, (2 : ℚ) / 5, techniques)

/-! ### Persistent store (`db_connector.py`, `DatabaseConnector`) -/

/-- Columns of the `threats` table created by `init_db`; `dict(row)` of a
`SELECT *` carries exactly these keys.  There is no `retry_count` column. -/
def threatsColumns : List String :=
  ["id", "source_ip", "destination_ip", "protocol", "behavior", "timestamp",
   "creation_time", "submitted", "submission_time", "api_response",
   "additional_data", "ai_analysis", "threat_classification", "severity",
   "confidence", "is_anomaly", "similar_threats", "recommended_actions",
   "content_safety_result", "urls_detected", "last_ai_analysis_time"]

/-- The methods `DatabaseConnector` defines.  `update_retry_count` and
`mark_as_permanently_failed`, which `retry_unsent_alerts` calls, are absent:
calling them raises `AttributeError`. -/
def dbConnectorMethods : List String :=
  ["init_db", "store_threat", "store_batch", "mark_as_submitted",
   "get_unsent_threats", "get_threat_by_id", "get_recent_threats",
   "get_stats", "cleanup_old_threats", "update_ai_analysis",
   "get_threat_with_ai_analysis", "get_threats_by_severity",
   "get_anomalous_threats"]

/-- One row of the `threats` table (the AI-analysis columns, which the
ingestion/delivery paths never write, are kept out of the row model but
listed in `threatsColumns`). -/
structure ThreatRow where
  id : String
  sourceIp : String
  destinationIp : Option String := none
  protocol : Option String := none
  behavior : Option String := none
  timestamp : Option String := none
  creationTime : String
  submitted : Bool := false
  submissionTime : Option String := none
  apiResponse : Option String := none
  additionalData : Option String := none
  deriving Repr, DecidableEq

/-- Python `dict(row)['retry_count']` would need a `retry_count` column;
the schema has none, so the key is never present. -/
def rowRetryCount (_ : ThreatRow) : Option Nat := none

/-- One row of the append-only `submission_attempts` table. -/
structure SubmissionAttempt where
  threatId : String
  attemptTime : String
  success : Bool
  errorMessage : Option String := none
  deriving Repr, DecidableEq

/-- The two tables of the store. -/
structure DBState where
  threats : List ThreatRow := []
  attempts : List SubmissionAttempt := []
  deriving Repr, DecidableEq

/-- Stand-in for `json.dumps(threat_data.get('additional_data', {}))`. -/
def dumpsAdditional (ad : List (String × Option String)) : String :=
  toString (repr ad)

/-- Fields written by the `UPDATE` branch of `store_threat` (the mutable
columns, each with the `.get(k, '')` default); `creation_time`, `submitted`
and the delivery columns are untouched. -/
def updThreat (t : ThreatData) (r : ThreatRow) : ThreatRow :=
  { r with
      sourceIp := t.sourceIp.getD ""
      destinationIp := some (t.destinationIp.getD "")
      protocol := some (t.protocol.getD "")
      behavior := some (t.behavior.getD "")
      timestamp := some (t.timestamp.getD "")
      additionalData := some (dumpsAdditional t.additionalData) }

/-- Row written by the `INSERT` branch of `store_threat`. -/
def insThreat (now : String) (t : ThreatData) : ThreatRow :=
  { id := t.id.getD ""
    sourceIp := t.sourceIp.getD ""
    destinationIp := some (t.destinationIp.getD "")
    protocol := some (t.protocol.getD "")
    behavior := some (t.behavior.getD "")
    timestamp := some (t.timestamp.getD "")
    creationTime := now
    additionalData := some (dumpsAdditional t.additionalData) }

/-- Embedding of `DatabaseConnector.store_threat`.  `now` is
`datetime.utcnow().isoformat()`.  A lookup with `id = NULL` matches nothing;
inserting a duplicate primary key raises, is caught, and leaves the store
unchanged (returns `False`). -/
def storeThreat (now : String) (t : ThreatData) (db : DBState) : Bool × DBState :=
  let existing : Option ThreatRow :=
    match t.id with
    | none => none
    | some i => db.threats.find? (fun r => r.id == i)
  match existing with
  | some _ =>
    (true, { db with
      threats := db.threats.map (fun r =>
        if some r.id == t.id then updThreat t r else r) })
  | none =>
    if db.threats.any (fun r => r.id == t.id.getD "") then (false, db)
    else (true, { db with threats := db.threats ++ [insThreat now t] })

/-- Id generated by `store_batch` when a record has no id:
`f"threat_{int(time.time())}_{hash(threat_data['source_ip'])}"`. -/
def genBatchId (epoch : Nat) (hashIp : String → Int) (sourceIp : String) : String :=
  "threat_" ++ toString epoch ++ "_" ++ toString (hashIp sourceIp)

/-- SQLite `INSERT OR REPLACE` keyed by `id`: the conflicting row is deleted
and the new row inserted with every column taken from the new values —
including `creation_time`, which `store_batch` always sets to
`datetime.now().isoformat()`. -/
def insertOrReplace (r : ThreatRow) (rows : List ThreatRow) : List ThreatRow :=
  rows.filter (fun x => x.id != r.id) ++ [r]

/-- Row inserted by `store_batch` for one record (`creation_time` is always
the write time; the nullable columns keep the values of `.get(k)`). -/
def batchRow (now : String) (t : ThreatData) (tid sip : String) : ThreatRow :=
  { id := tid
    sourceIp := sip
    destinationIp := t.destinationIp
    protocol := t.protocol
    behavior := t.behavior
    timestamp := t.timestamp
    creationTime := now
    additionalData := some (dumpsAdditional t.additionalData) }

def storeBatchAux (now : String) (epoch : Nat) (hashIp : String → Int) :
    List ThreatData → List String → DBState → Option (List String × DBState)
  | [], acc, db => some (acc.reverse, db)
  | t :: ts, acc, db =>
    match t.sourceIp with
    | none => none
    | some sip =>
      let tid := t.id.getD (genBatchId epoch hashIp sip)
      storeBatchAux now epoch hashIp ts (tid :: acc)
        { db with threats := insertOrReplace (batchRow now t tid sip) db.threats }

/-- Embedding of `DatabaseConnector.store_batch`: one transaction inserting
each record with `INSERT OR REPLACE`; a record without the mandatory
`source_ip` key raises `KeyError`, the transaction is rolled back and the
exception re-raised (`none`). -/
def storeBatch (now : String) (epoch : Nat) (hashIp : String → Int)
    (batch : List ThreatData) (db : DBState) : Option (List String × DBState) :=
  if batch.isEmpty then some ([], db)
  else storeBatchAux now epoch hashIp batch [] db

/-- Python `json.dumps(api_response)` where `api_response` may be `None`. -/
def dumpsResponse (r : Option String) : String := r.getD "null"

/-- Embedding of `DatabaseConnector.mark_as_submitted`: on success update the
threat row; always append exactly one `submission_attempts` row. -/
def markAsSubmitted (now : String) (tid : String) (success : Bool)
    (apiResponse : Option String) (errorMessage : Option String) (db : DBState) : DBState :=
  let db1 :=
    if success then
      { db with
        threats := db.threats.map (fun r =>
          if r.id == tid then
            { r with
                submitted := true
                submissionTime := some now
                apiResponse := some (dumpsResponse apiResponse) }
          else r) }
    else db
  { db1 with
    attempts := db1.attempts ++
      [{ threatId := tid, attemptTime := now, success := success,
         errorMessage := errorMessage }] }

/-- Stable insertion into a list ascending by `creation_time`. -/
def insertByCreation (r : ThreatRow) : List ThreatRow → List ThreatRow
  | [] => [r]
  | x :: xs =>
    if compare x.creationTime r.creationTime != Ordering.gt then
      x :: insertByCreation r xs
    else r :: x :: xs

/-- `ORDER BY creation_time ASC` as a stable sort. -/
def sortByCreation (rows : List ThreatRow) : List ThreatRow :=
  rows.foldl (fun acc r => insertByCreation r acc) []

/-- Embedding of `DatabaseConnector.get_unsent_threats`. -/
def getUnsentThreats (limit : Nat) (db : DBState) : List ThreatRow :=
  (sortByCreation (db.threats.filter (fun r => !r.submitted))).take limit

/-! ### Delivery engine (`snort_connector.py`, `SnortLogWatcher.send_alert`) -/

/-- Outcome of `response.json()` on a received response: the parsed payload
(serialized), or the exception a non-JSON body raises. -/
inductive JsonResult where
  | ok (payload : String)
  | err (msg : String)
  deriving Repr, DecidableEq

/-- Outcome of `requests.post`: a response with a status code, the result
`response.json()` would produce, and `response.text`; or a transport-level
exception. -/
inductive HttpOutcome where
  | response (status : Nat) (json : JsonResult) (text : String)
  | transportError (msg : String)
  deriving Repr, DecidableEq

/-- Embedding of `SnortLogWatcher.send_alert` with storage available and AI
disabled.  Only status code 200 reaches the success branch, and there the
f-string `logger.debug(f"Response data: {json.dumps(response.json(), ...)}")`
evaluates `response.json()` eagerly before any database update: a 200
response whose body is not valid JSON raises there, lands in the outer
`except`, and is recorded as a failed attempt with `str(e)`.  Any non-200
status records a failure built from the status and `response.text`; a
transport error records its message; nothing propagates to the caller.  The
database update is guarded by the truthiness of
`threat_data.get('id', None)`. -/
def sendAlert (outcome : HttpOutcome) (now : String) (t : ThreatData) (db : DBState) : DBState :=
  let tid := t.id
  match outcome with
  | .response status json text =>
    if status == 200 then
      match json with
      | .ok payload =>
        if truthyS tid then markAsSubmitted now (tid.getD "") true (some payload) none db
        else db
      | .err e =>
        if truthyS tid then markAsSubmitted now (tid.getD "") false none (some e) db
        else db
    else
      if truthyS tid then
        markAsSubmitted now (tid.getD "") false none
          (some ("HTTP " ++ toString status ++ ": " ++ text)) db
      else db
  | .transportError msg =>
    if truthyS tid then markAsSubmitted now (tid.getD "") false none (some msg) db
    else db

/-- Threat dict handed to `send_alert` by the retry sweep: `dict(row)` of an
unsent threats row, whose `id` key is the row id. -/
def rowToData (r : ThreatRow) : ThreatData :=
  { id := some r.id
    sourceIp := some r.sourceIp
    destinationIp := r.destinationIp
    protocol := r.protocol
    behavior := r.behavior
    timestamp := r.timestamp
    additionalData := [] }

/-! ### Retry sweep (`retry_unsent_alerts`) -/

/-- Observable outcome of one sweep cycle of `retry_unsent_alerts`:
which record ids were handed to `send_alert`, which were marked permanently
failed in the store, and whether the cycle aborted with an `AttributeError`
from a missing `DatabaseConnector` method (caught by the `while`-level
`except`, ending the cycle early). -/
structure SweepResult where
  attemptedIds : List String
  markedFailedIds : List String
  raisedAttrError : Bool
  db : DBState
  deriving Repr, DecidableEq

def retrySweepAux (retryLimit : Nat) (outcomes : String → HttpOutcome) (now : String) :
    List ThreatRow → List String → DBState → SweepResult
  | [], acc, db =>
    { attemptedIds := acc.reverse, markedFailedIds := [], raisedAttrError := false, db := db }
  | t :: ts, acc, db =>
    if threatsColumns.contains "retry_count" && (rowRetryCount t).getD 0 ≥ retryLimit then
      -- `mark_as_permanently_failed` is not a `DatabaseConnector` method
      { attemptedIds := acc.reverse, markedFailedIds := [], raisedAttrError := true, db := db }
    else
      let db' := sendAlert (outcomes t.id) now (rowToData t) db
      if dbConnectorMethods.contains "update_retry_count" then
        retrySweepAux retryLimit outcomes now ts (t.id :: acc) db'
      else
        -- `watcher.db.update_retry_count(...)` raises `AttributeError`,
        -- aborting the rest of this cycle's loop
        { attemptedIds := (t.id :: acc).reverse, markedFailedIds := [],
          raisedAttrError := true, db := db' }

/-- One cycle of the retry sweep body (`retry_unsent_alerts` lines 482-519)
with AI disabled: fetch up to 50 unsent rows oldest-first and walk them. -/
def retrySweepCycle (retryLimit : Nat) (outcomes : String → HttpOutcome) (now : String)
    (db : DBState) : SweepResult :=
  retrySweepAux retryLimit outcomes now (getUnsentThreats 50 db) [] db

/-! ### Log tail reader (`SnortLogWatcher.process_new_alerts`) -/

/-- Cursor step and raw bytes read by one poll: reset the cursor on
truncation, return nothing when the size equals the cursor, otherwise read
from the cursor to the end and advance the cursor to the observed size. -/
def pollRaw (cursor : Nat) (content : List Char) : Nat × List Char :=
  let size := content.length
  let c1 := if size < cursor then 0 else cursor
  if size == c1 then (c1, [])
  else (size, content.drop c1)

/-- Python `[a.strip() for a in new_content.split('\n\n') if a.strip()]`. -/
def splitAlertBlocks (raw : List Char) : List (List Char) :=
  ((splitBlank raw).map pyStrip).filter (fun b => !b.isEmpty)

/-- One poll of the tail reader: new cursor and the raw alert blocks
delivered. -/
def processNewAlerts (cursor : Nat) (content : List Char) : Nat × List (List Char) :=
  let (c', raw) := pollRaw cursor content
  (c', splitAlertBlocks raw)

/-- Python truthiness test `not threat_data["source_ip"] or not
threat_data["destination_ip"]` deciding that a parsed block is viable. -/
def viableThreat (td : ThreatData) : Bool :=
  truthyS td.sourceIp && truthyS td.destinationIp

/-- Per-cycle block loop of `process_new_alerts` (non-batch path, storage
ignored): parse each block, convert it, skip it when a required IP is
missing, and deliver the rest in order.  An exception inside one block is
caught and the loop continues; parsing and conversion are total, so the
skip test is the only drop point. -/
def cycleThreats : List (List Char) → List ThreatData
  | [] => []
  | b :: bs =>
    let td := toCybercareThreat (parseSnortAlert (String.mk b))
    if viableThreat td then td :: cycleThreats bs
    else cycleThreats bs

/-! ### Batch job coordinator (`threats.py`, `process_batch`) -/

/-- Per-item outcome appended to `results`: a successful analysis or the
error placeholder built in the per-item `except` branch. -/
inductive ItemOutcome where
  | ok (severity : String) (confidence : ℚ) (techniques : List String)
  | failedItem (errMsg : String)
  deriving Repr, DecidableEq

def ItemOutcome.isError : ItemOutcome → Bool
  | .ok _ _ _ => false
  | .failedItem _ => true

/-- Snapshot of a batch job (`_job_statuses[job_id]`). -/
structure BatchJob where
  status : String
  total : Nat
  completed : Nat
  results : List ItemOutcome
  startTime : String
  endTime : Option String := none
  error : Option String := none
  deriving Repr, DecidableEq

/-- Item loop of `process_batch`: on success append the result and set
`completed = i + 1`; on a per-item exception append the error placeholder and
leave `completed` untouched. -/
def processItems (analyze : Nat → Except String (String × ℚ × List String)) :
    Nat → Nat → Nat → List ItemOutcome → List ItemOutcome × Nat
  | _, completed, 0, results => (results, completed)
  | i, completed, n + 1, results =>
    match analyze i with
    | .ok (sev, conf, tech) =>
      processItems analyze (i + 1) (i + 1) n (results ++ [.ok sev conf tech])
    | .error e =>
      processItems analyze (i + 1) completed n (results ++ [.failedItem e])

/-- Embedding of `process_batch` over a batch of `n` items whose per-item
service-call outcomes are given by `analyze` (an `Except.error` models the
call raising).  The job goes PENDING → PROCESSING → COMPLETED; per-item
exceptions never abort the loop or fail the job. -/
def processBatchRun (analyze : Nat → Except String (String × ℚ × List String))
    (n : Nat) (startTime endTime : String) : BatchJob :=
  let pending : BatchJob :=
    { status := "PENDING", total := n, completed := 0, results := [], startTime := startTime }
  let processing := { pending with status := "PROCESSING" }
  let rc := processItems analyze 0 processing.completed n []
  { processing with
      status := "COMPLETED"
      completed := rc.2
      results := rc.1
      endTime := some endTime }

/-- The `completed` counter visible after the first `k` items of a batch of
`n` have been handled (the job snapshot is persisted after every item). -/
def completedAfter (analyze : Nat → Except String (String × ℚ × List String)) (k : Nat) : Nat :=
  (processItems analyze 0 0 k []).2

/-! ## Claim theorems -/

/-- Alert block of the parsing scenario in the specification. -/
def scenarioBlock : String :=
  "[**] [1:1000008:1] SNORT ALERT: Malware C2 Traffic [**]\n[Classification: Potentially Bad Traffic] [Priority: 1]\n03/04-14:10:22.123456 192.168.10.80:54321 -> 10.0.0.40:8080"

/-- C5: the scenario block parses to source_ip 192.168.10.80, dest_ip
10.0.0.40, protocol TCP (dest port 8080 takes the default branch), behavior
`malware_c2` via the direct classification-label lookup, and the heuristic
severity path returns HIGH for the converted record (its behavior text
contains "malware"). -/
theorem snort_scenario_block_parses_as_specified :
    (parseSnortAlert scenarioBlock).sourceIp = some "192.168.10.80" ∧
    (parseSnortAlert scenarioBlock).destIp = some "10.0.0.40" ∧
    (parseSnortAlert scenarioBlock).destPort = some 8080 ∧
    (parseSnortAlert scenarioBlock).protocol = some "TCP" ∧
    (parseSnortAlert scenarioBlock).classification = some "Potentially Bad Traffic" ∧
    behaviorMapping.lookup "Potentially Bad Traffic" = some "malware_c2" ∧
    (toCybercareThreat (parseSnortAlert scenarioBlock)).behavior = some "malware_c2" ∧
    basicThreatAnalysis (toCybercareThreat (parseSnortAlert scenarioBlock)) = "HIGH" := by
  decide

/-- Lowercased payload text the heuristic inspects. -/
def payloadTextOf (d : ThreatData) : List Char := pyLower (d.payload.getD "").toList

/-- Lowercased behavior text the heuristic inspects. -/
def behaviorTextOf (d : ThreatData) : List Char := pyLower (d.behavior.getD "").toList

/-- C7: on the heuristic fallback path, severity is HIGH iff the payload or
behavior text contains a high keyword, else MEDIUM iff a medium keyword, else
LOW iff a low keyword, else NORMAL; the returned confidence is exactly 1/2
when the heuristic ran because no model is available and exactly 2/5 when the
model call itself threw mid-flight. -/
theorem heuristic_severity_rules_and_confidence (data : ThreatData) :
    (basicThreatAnalysis data = "HIGH" ↔
      containsAny highIndicators (payloadTextOf data) (behaviorTextOf data) = true) ∧
    (containsAny highIndicators (payloadTextOf data) (behaviorTextOf data) = false →
      (basicThreatAnalysis data = "MEDIUM" ↔
        containsAny mediumIndicators (payloadTextOf data) (behaviorTextOf data) = true)) ∧
    (containsAny highIndicators (payloadTextOf data) (behaviorTextOf data) = false →
      containsAny mediumIndicators (payloadTextOf data) (behaviorTextOf data) = false →
      (basicThreatAnalysis data = "LOW" ↔
        containsAny lowIndicators (payloadTextOf data) (behaviorTextOf data) = true)) ∧
    (containsAny highIndicators (payloadTextOf data) (behaviorTextOf data) = false →
      containsAny mediumIndicators (payloadTextOf data) (behaviorTextOf data) = false →
      containsAny lowIndicators (payloadTextOf data) (behaviorTextOf data) = false →
      basicThreatAnalysis data = "NORMAL") ∧
    (∀ oracleOutcome, predict false oracleOutcome data =
      (basicThreatAnalysis data, (1 : ℚ) / 2, identifyTechniques data)) ∧
    predict true none data =
      (basicThreatAnalysis data, (2 : ℚ) / 5, identifyTechniques data) := by
  simp only [basicThreatAnalysis, payloadTextOf, behaviorTextOf, predict]
  cases hH : containsAny highIndicators (pyLower (data.payload.getD "").toList)
      (pyLower (data.behavior.getD "").toList) <;>
    cases hM : containsAny mediumIndicators (pyLower (data.payload.getD "").toList)
        (pyLower (data.behavior.getD "").toList) <;>
      cases hL : containsAny lowIndicators (pyLower (data.payload.getD "").toList)
          (pyLower (data.behavior.getD "").toList) <;>
        simp [hH, hM, hL]

/-- Witness for C7 at a concrete record: behavior "nmap scan detected" is
MEDIUM with heuristic confidence 1/2 on the model-absent path. -/
theorem heuristic_severity_rules_and_confidence_witness :
    basicThreatAnalysis { behavior := some "nmap scan detected" } = "MEDIUM" ∧
    predict false none { behavior := some "nmap scan detected" } =
      ("MEDIUM", (1 : ℚ) / 2, ["T1046"]) := by
  have h := heuristic_severity_rules_and_confidence { behavior := some "nmap scan detected" }
  have hmed : basicThreatAnalysis { behavior := some "nmap scan detected" } = "MEDIUM" :=
    (h.2.1 (by decide)).mpr (by decide)
  refine ⟨hmed, ?_⟩
  rw [h.2.2.2.2.1 none, hmed]
  refine congrArg (fun t => ("MEDIUM", (1 : ℚ) / 2, t)) ?_
  decide

/-! ### Batch-coordinator lemmas and C4 -/

/-- Outcome recorded in `results` for one item, as a function of the
service-call outcome. -/
def mkOutcome : Except String (String × ℚ × List String) → ItemOutcome
  | .ok (s, c, t) => .ok s c t
  | .error e => .failedItem e

def isOkE : Except String (String × ℚ × List String) → Bool
  | .ok _ => true
  | .error _ => false

lemma processItems_succ (analyze : Nat → Except String (String × ℚ × List String))
    (i c k : Nat) (res : List ItemOutcome) :
    processItems analyze i c (k + 1) res =
      match analyze i with
      | .ok (s, cf, t) => processItems analyze (i + 1) (i + 1) k (res ++ [.ok s cf t])
      | .error e => processItems analyze (i + 1) c k (res ++ [.failedItem e]) := rfl

lemma processItems_fst (analyze : Nat → Except String (String × ℚ × List String)) :
    ∀ (k i c : Nat) (res : List ItemOutcome),
      (processItems analyze i c k res).1 =
        res ++ (List.range' i k).map (fun j => mkOutcome (analyze j)) := by
  intro k
  induction k with
  | zero => intro i c res; simp [processItems]
  | succ n ih =>
    intro i c res
    rw [processItems_succ]
    cases hA : analyze i with
    | ok v =>
      obtain ⟨s, cf, tech⟩ := v
      show (processItems analyze (i + 1) (i + 1) n (res ++ [.ok s cf tech])).1 = _
      rw [ih, List.range'_succ]
      simp [mkOutcome, hA]
    | error e =>
      show (processItems analyze (i + 1) c n (res ++ [.failedItem e])).1 = _
      rw [ih, List.range'_succ]
      simp [mkOutcome, hA]

lemma processItems_snd_bounds (analyze : Nat → Except String (String × ℚ × List String)) :
    ∀ (k i c : Nat) (res : List ItemOutcome), c ≤ i →
      c ≤ (processItems analyze i c k res).2 ∧ (processItems analyze i c k res).2 ≤ i + k := by
  intro k
  induction k with
  | zero => intro i c res h; simpa [processItems] using h
  | succ n ih =>
    intro i c res h
    rw [processItems_succ]
    cases hA : analyze i with
    | ok v =>
      obtain ⟨s, cf, tech⟩ := v
      show c ≤ (processItems analyze (i + 1) (i + 1) n (res ++ [.ok s cf tech])).2 ∧
        (processItems analyze (i + 1) (i + 1) n (res ++ [.ok s cf tech])).2 ≤ i + (n + 1)
      have := ih (i + 1) (i + 1) (res ++ [.ok s cf tech]) (le_refl _)
      exact ⟨le_trans (by omega) this.1, by omega⟩
    | error e =>
      show c ≤ (processItems analyze (i + 1) c n (res ++ [.failedItem e])).2 ∧
        (processItems analyze (i + 1) c n (res ++ [.failedItem e])).2 ≤ i + (n + 1)
      have := ih (i + 1) c (res ++ [.failedItem e]) (by omega)
      exact ⟨this.1, by omega⟩

lemma processItems_snd_mono (analyze : Nat → Except String (String × ℚ × List String)) :
    ∀ (k i c : Nat) (res : List ItemOutcome), c ≤ i →
      (processItems analyze i c k res).2 ≤ (processItems analyze i c (k + 1) res).2 := by
  intro k
  induction k with
  | zero =>
    intro i c res h
    simpa [processItems] using (processItems_snd_bounds analyze 1 i c res h).1
  | succ n ih =>
    intro i c res h
    rw [processItems_succ, processItems_succ]
    cases hA : analyze i with
    | ok v =>
      obtain ⟨s, cf, tech⟩ := v
      show (processItems analyze (i + 1) (i + 1) n (res ++ [.ok s cf tech])).2 ≤ _
      exact ih (i + 1) (i + 1) (res ++ [.ok s cf tech]) (le_refl _)
    | error e =>
      show (processItems analyze (i + 1) c n (res ++ [.failedItem e])).2 ≤ _
      exact ih (i + 1) c (res ++ [.failedItem e]) (by omega)

lemma processItems_snd_last_ok (analyze : Nat → Except String (String × ℚ × List String)) :
    ∀ (k i c : Nat) (res : List ItemOutcome), isOkE (analyze (i + k)) = true →
      (processItems analyze i c (k + 1) res).2 = i + k + 1 := by
  intro k
  induction k with
  | zero =>
    intro i c res h
    rw [processItems_succ]
    cases hA : analyze i with
    | ok v =>
      obtain ⟨s, cf, tech⟩ := v
      simp [processItems]
    | error e => simp [hA, isOkE] at h
  | succ n ih =>
    intro i c res h
    have h' : isOkE (analyze (i + 1 + n)) = true := by
      have heq : i + 1 + n = i + (n + 1) := by omega
      rw [heq]; exact h
    rw [processItems_succ]
    cases hA : analyze i with
    | ok v =>
      obtain ⟨s, cf, tech⟩ := v
      show (processItems analyze (i + 1) (i + 1) (n + 1) (res ++ [.ok s cf tech])).2 = _
      have := ih (i + 1) (i + 1) (res ++ [.ok s cf tech]) h'
      omega
    | error e =>
      show (processItems analyze (i + 1) c (n + 1) (res ++ [.failedItem e])).2 = _
      have := ih (i + 1) c (res ++ [.failedItem e]) h'
      omega

/-- C4 counterexample: a batch of one item whose delivery throws ends
COMPLETED with `completed = 0 ≠ total = 1` — the error branch of the item
loop never updates `completed`, so `completed` does not equal `n` at
COMPLETED as claimed. -/
theorem batch_completed_undercount_counterexample :
    (processBatchRun (fun _ => .error "boom") 1 "S" "E").status = "COMPLETED" ∧
    (processBatchRun (fun _ => .error "boom") 1 "S" "E").total = 1 ∧
    (processBatchRun (fun _ => .error "boom") 1 "S" "E").completed = 0 := by
  decide

/-- C4 amended: the worker processes items in input order, appends one
outcome per item (error placeholder on a per-item exception) and always
terminates COMPLETED with `end_time` stamped; `completed` is set to `i + 1`
only on successful items, hence is monotonically non-decreasing, never
exceeds `n`, and equals `n` exactly when the final item succeeded (so the
5-item scenario with item 3 throwing still ends with completed = 5 and
`results[2]` the error outcome). -/
theorem batch_job_lifecycle_amended (analyze : Nat → Except String (String × ℚ × List String))
    (n : Nat) (s e : String) :
    (processBatchRun analyze n s e).status = "COMPLETED" ∧
    (processBatchRun analyze n s e).endTime = some e ∧
    (processBatchRun analyze n s e).total = n ∧
    (processBatchRun analyze n s e).results =
      (List.range n).map (fun j => mkOutcome (analyze j)) ∧
    (processBatchRun analyze n s e).completed = completedAfter analyze n ∧
    (∀ k, completedAfter analyze k ≤ completedAfter analyze (k + 1)) ∧
    completedAfter analyze n ≤ n ∧
    (∀ m, n = m + 1 → isOkE (analyze m) = true →
      (processBatchRun analyze n s e).completed = n) := by
  refine ⟨rfl, rfl, rfl, ?_, rfl, ?_, ?_, ?_⟩
  · show (processItems analyze 0 0 n []).1 = _
    rw [processItems_fst]
    simp [List.range_eq_range']
  · intro k
    exact processItems_snd_mono analyze k 0 0 [] (le_refl 0)
  · simpa using (processItems_snd_bounds analyze n 0 0 [] (le_refl 0)).2
  · intro m hn hok
    show (processItems analyze 0 0 n []).2 = n
    subst hn
    have := processItems_snd_last_ok analyze m 0 0 [] (by simpa using hok)
    simpa using this

/-- Concrete per-item outcomes of the 5-item scenario: item 3 (index 2)
throws, the others succeed. -/
def batchScenario (i : Nat) : Except String (String × ℚ × List String) :=
  if i = 2 then .error "delivery failed" else .ok ("NORMAL", (1 : ℚ) / 2, [])

/-- Witness for C4 at the 5-item scenario. -/
theorem batch_job_lifecycle_amended_witness :
    (processBatchRun batchScenario 5 "S" "E").status = "COMPLETED" ∧
    (processBatchRun batchScenario 5 "S" "E").completed = 5 ∧
    (processBatchRun batchScenario 5 "S" "E").results.getD 2 (.failedItem "") =
      .failedItem "delivery failed" := by
  have h := batch_job_lifecycle_amended batchScenario 5 "S" "E"
  refine ⟨h.1, h.2.2.2.2.2.2.2 4 rfl (by decide), ?_⟩
  rw [h.2.2.2.1]
  decide

/-! ### Store lemmas, C2 and C8 -/

lemma markAsSubmitted_attempts (now tid : String) (success : Bool)
    (resp err : Option String) (db : DBState) :
    (markAsSubmitted now tid success resp err db).attempts =
      db.attempts ++ [{ threatId := tid, attemptTime := now, success := success,
                        errorMessage := err }] := by
  cases success <;> rfl

lemma markAsSubmitted_threats_of_false (now tid : String)
    (resp err : Option String) (db : DBState) :
    (markAsSubmitted now tid false resp err db).threats = db.threats := rfl

lemma markAsSubmitted_threats_of_true (now tid : String)
    (resp err : Option String) (db : DBState) :
    (markAsSubmitted now tid true resp err db).threats =
      db.threats.map (fun r =>
        if r.id == tid then
          { r with submitted := true, submissionTime := some now,
                   apiResponse := some (dumpsResponse resp) }
        else r) := rfl

lemma markAsSubmitted_threats_submitted (now tid : String)
    (resp err : Option String) (db : DBState) :
    ∀ r ∈ (markAsSubmitted now tid true resp err db).threats,
      r.id = tid → r.submitted = true ∧ r.apiResponse = some (dumpsResponse resp) := by
  intro r hr hid
  rw [markAsSubmitted_threats_of_true, List.mem_map] at hr
  obtain ⟨x, hx, rfl⟩ := hr
  by_cases hxe : (x.id == tid) = true
  · simp [hxe]
  · rw [if_neg hxe] at hid
    exact absurd (beq_iff_eq.mpr hid) hxe

/-- The sample row and store used by concrete instances. -/
def sampleRow : ThreatRow :=
  { id := "t1", sourceIp := "1.2.3.4", behavior := some "dos", creationTime := "T0" }

def sampleDb : DBState := { threats := [sampleRow] }

/-- C2 counterexample: a failed `mark_as_submitted` call leaves the threat
row bit-for-bit unchanged and the threats schema has no `retry_count`
column, so nothing is incremented — refuting the claimed
`retry_count`-increment on failure (and the claimed retry_count = 1 state
after one failed submission). -/
theorem mark_as_submitted_no_retry_count_counterexample :
    (markAsSubmitted "N1" "t1" false none (some "HTTP 500: server error") sampleDb).threats =
      [sampleRow] ∧
    (markAsSubmitted "N1" "t1" false none (some "HTTP 500: server error") sampleDb).attempts =
      [{ threatId := "t1", attemptTime := "N1", success := false,
         errorMessage := some "HTTP 500: server error" }] ∧
    threatsColumns.contains "retry_count" = false := by
  decide

/-- C2 amended: every `mark_as_submitted` call appends exactly one new
SubmissionAttempt row, leaving all existing attempt rows unmodified; on
success the threat row gains `submitted = 1` and the response payload; on
failure the threat row is left entirely untouched — no retry counter exists
in the store (`threats` has no `retry_count` column), so nothing increments
one. After one failed then one successful submission the record is
submitted with exactly two ledger rows (one failure, one success). -/
theorem mark_as_submitted_amended (now tid : String) (success : Bool)
    (resp err : Option String) (db : DBState) :
    (markAsSubmitted now tid success resp err db).attempts =
      db.attempts ++ [{ threatId := tid, attemptTime := now, success := success,
                        errorMessage := err }] ∧
    (success = false → (markAsSubmitted now tid success resp err db).threats = db.threats) ∧
    (success = true → ∀ r ∈ (markAsSubmitted now tid success resp err db).threats,
      r.id = tid → r.submitted = true ∧ r.apiResponse = some (dumpsResponse resp)) ∧
    threatsColumns.contains "retry_count" = false := by
  refine ⟨markAsSubmitted_attempts now tid success resp err db, ?_, ?_, by decide⟩
  · rintro rfl
    exact markAsSubmitted_threats_of_false now tid resp err db
  · rintro rfl
    exact markAsSubmitted_threats_submitted now tid resp err db

/-- Witness for C2: the failed-then-successful scenario on a concrete store
ends submitted with ledger flags `[false, true]`. -/
theorem mark_as_submitted_amended_witness :
    (markAsSubmitted "N1" "t1" false none (some "HTTP 500: server error") sampleDb).threats =
      sampleDb.threats ∧
    ((markAsSubmitted "N2" "t1" true (some "response-ok") none
        (markAsSubmitted "N1" "t1" false none (some "HTTP 500: server error")
          sampleDb)).attempts.map SubmissionAttempt.success) = [false, true] ∧
    (∀ r ∈ (markAsSubmitted "N2" "t1" true (some "response-ok") none
        (markAsSubmitted "N1" "t1" false none (some "HTTP 500: server error")
          sampleDb)).threats, r.id = "t1" → r.submitted = true) :=
  ⟨(mark_as_submitted_amended "N1" "t1" false none (some "HTTP 500: server error") sampleDb).2.1
      rfl,
   by decide,
   fun r hr hid =>
     ((mark_as_submitted_amended "N2" "t1" true (some "response-ok") none _).2.2.1 rfl
       r hr hid).1⟩

/-- C8 counterexample: two 2xx deliveries the claim calls successes are
recorded as failures.  A 201 response — inside the 2xx range — takes the
failure branch (only status 200 is tested), and even a 200 response whose
body is not valid JSON raises in the eagerly evaluated
`logger.debug(f"... {json.dumps(response.json(), ...)}")` and is recorded as
a failed attempt: in both runs the record stays unsent and the ledger row
records a failure. -/
theorem send_alert_2xx_counterexample :
    (sendAlert (.response 201 (.ok "id 7") "created") "N1"
        (rowToData sampleRow) sampleDb).threats = [sampleRow] ∧
    (sendAlert (.response 201 (.ok "id 7") "created") "N1"
        (rowToData sampleRow) sampleDb).attempts =
      [{ threatId := "t1", attemptTime := "N1", success := false,
         errorMessage := some "HTTP 201: created" }] ∧
    (sendAlert (.response 200 (.err "Expecting value: line 1 column 1 (char 0)") "OK")
        "N1" (rowToData sampleRow) sampleDb).threats = [sampleRow] ∧
    (sendAlert (.response 200 (.err "Expecting value: line 1 column 1 (char 0)") "OK")
        "N1" (rowToData sampleRow) sampleDb).attempts =
      [{ threatId := "t1", attemptTime := "N1", success := false,
         errorMessage := some "Expecting value: line 1 column 1 (char 0)" }] := by
  decide

/-- C8 amended: for a record with a truthy id, `send_alert` appends exactly
one attempt row whose success flag holds iff the HTTP status is exactly 200
and the response body parses as JSON (the success branch evaluates
`response.json()` before any database update); on such a response the record
is marked submitted; on any other status, a non-JSON 200 body, or a
transport error the threat rows are untouched and the error recorded;
nothing propagates to the caller (the embedding is total). -/
theorem send_alert_success_iff_200_json (outcome : HttpOutcome) (now : String)
    (t : ThreatData) (db : DBState) (htid : truthyS t.id = true) :
    (∃ a : SubmissionAttempt,
      (sendAlert outcome now t db).attempts = db.attempts ++ [a] ∧
      a.threatId = t.id.getD "" ∧
      (a.success = true ↔
        ∃ payload text, outcome = .response 200 (.ok payload) text)) ∧
    ((∀ payload text, outcome ≠ .response 200 (.ok payload) text) →
      (sendAlert outcome now t db).threats = db.threats) ∧
    ((∃ payload text, outcome = .response 200 (.ok payload) text) →
      ∀ r ∈ (sendAlert outcome now t db).threats, r.id = t.id.getD "" →
        r.submitted = true) := by
  cases outcome with
  | response status json text =>
    by_cases h200 : status = 200
    · subst h200
      cases json with
      | ok payload =>
        have hred : sendAlert (.response 200 (.ok payload) text) now t db =
            markAsSubmitted now (t.id.getD "") true (some payload) none db := by
          simp [sendAlert, htid]
        refine ⟨⟨{ threatId := t.id.getD "", attemptTime := now, success := true,
                   errorMessage := none }, ?_, rfl, ?_⟩, ?_, ?_⟩
        · rw [hred, markAsSubmitted_attempts]
        · simp only [true_iff]
          exact ⟨payload, text, rfl⟩
        · intro h
          exact absurd rfl (h payload text)
        · intro _ r hr hid
          rw [hred] at hr
          exact (markAsSubmitted_threats_submitted now (t.id.getD "") (some payload) none db
            r hr hid).1
      | err e =>
        have hred : sendAlert (.response 200 (.err e) text) now t db =
            markAsSubmitted now (t.id.getD "") false none (some e) db := by
          simp [sendAlert, htid]
        refine ⟨⟨{ threatId := t.id.getD "", attemptTime := now, success := false,
                   errorMessage := some e }, ?_, rfl, ?_⟩, ?_, ?_⟩
        · rw [hred, markAsSubmitted_attempts]
        · simp only [Bool.false_eq_true, false_iff]
          rintro ⟨p, tx, hb⟩
          injection hb with h1 h2 h3
          cases h2
        · intro _
          rw [hred]
          exact markAsSubmitted_threats_of_false _ _ _ _ _
        · rintro ⟨p, tx, hb⟩
          injection hb with h1 h2 h3
          cases h2
    · have hred : sendAlert (.response status json text) now t db =
          markAsSubmitted now (t.id.getD "") false none
            (some ("HTTP " ++ toString status ++ ": " ++ text)) db := by
        simp [sendAlert, htid, h200]
      refine ⟨⟨{ threatId := t.id.getD "", attemptTime := now, success := false,
                 errorMessage := some ("HTTP " ++ toString status ++ ": " ++ text) },
               ?_, rfl, ?_⟩, ?_, ?_⟩
      · rw [hred, markAsSubmitted_attempts]
      · simp only [Bool.false_eq_true, false_iff]
        rintro ⟨p, tx, hb⟩
        exact h200 (by injection hb)
      · intro _
        rw [hred]
        exact markAsSubmitted_threats_of_false _ _ _ _ _
      · rintro ⟨p, tx, hb⟩
        exact absurd (by injection hb) h200
  | transportError msg =>
    have hred : sendAlert (.transportError msg) now t db =
        markAsSubmitted now (t.id.getD "") false none (some msg) db := by
      simp [sendAlert, htid]
    refine ⟨⟨{ threatId := t.id.getD "", attemptTime := now, success := false,
               errorMessage := some msg }, ?_, rfl, ?_⟩, ?_, ?_⟩
    · rw [hred, markAsSubmitted_attempts]
    · simp only [Bool.false_eq_true, false_iff]
      rintro ⟨p, tx, hb⟩
      cases hb
    · intro _
      rw [hred]
      exact markAsSubmitted_threats_of_false _ _ _ _ _
    · rintro ⟨p, tx, hb⟩
      cases hb

/-- Witness for C8: a concrete 500 response and a 200 response with a
non-JSON body both leave the store's threat rows unchanged with one failed
attempt, while a 200 response with a JSON body marks the record
submitted. -/
theorem send_alert_success_iff_200_json_witness :
    (sendAlert (.response 500 (.err "Expecting value") "server error") "N1"
        (rowToData sampleRow) sampleDb).threats = sampleDb.threats ∧
    (sendAlert (.response 200 (.err "Expecting value") "OK") "N1"
        (rowToData sampleRow) sampleDb).threats = sampleDb.threats ∧
    (∃ a : SubmissionAttempt,
      (sendAlert (.response 500 (.err "Expecting value") "server error") "N1"
          (rowToData sampleRow) sampleDb).attempts =
        sampleDb.attempts ++ [a] ∧ a.threatId = "t1" ∧ (a.success = true ↔ False)) ∧
    (∀ r ∈ (sendAlert (.response 200 (.ok "id 7") "OK") "N1"
        (rowToData sampleRow) sampleDb).threats, r.id = "t1" → r.submitted = true) := by
  have h500 := send_alert_success_iff_200_json
    (.response 500 (.err "Expecting value") "server error") "N1"
    (rowToData sampleRow) sampleDb (by decide)
  have h200e := send_alert_success_iff_200_json
    (.response 200 (.err "Expecting value") "OK") "N1"
    (rowToData sampleRow) sampleDb (by decide)
  have h200ok := send_alert_success_iff_200_json
    (.response 200 (.ok "id 7") "OK") "N1"
    (rowToData sampleRow) sampleDb (by decide)
  refine ⟨h500.2.1 ?_, h200e.2.1 ?_, ?_, ?_⟩
  · intro payload tx hb
    injection hb with h1 h2
    exact absurd h1 (by decide)
  · intro payload tx hb
    injection hb with h1 h2 h3
    cases h2
  · obtain ⟨a, ha1, ha2, ha3⟩ := h500.1
    refine ⟨a, ha1, ha2, ?_⟩
    rw [ha3]
    constructor
    · rintro ⟨p, tx, hb⟩
      injection hb with h1 h2
      exact absurd h1 (by decide)
    · exact fun hf => hf.elim
  · exact h200ok.2.2 ⟨"id 7", "OK", rfl⟩

/-! ### Tail reader, C6 -/

/-- C6: on each poll, a size smaller than the cursor resets the cursor to 0
and the poll behaves as a fresh read of the whole file; an unchanged size
yields nothing and leaves the cursor in place; otherwise exactly the bytes
from the cursor to the size are read and the cursor advances to the size;
delivered blocks are the nonempty stripped blank-line fragments; and over an
append-only file two consecutive polls deliver exactly the suffix past the
original cursor once — bytes already advanced past are never re-delivered. -/
theorem tail_reader_poll_contract :
    (∀ (c : Nat) (content : List Char), content.length < c →
      pollRaw c content = pollRaw 0 content) ∧
    (∀ (c : Nat) (content : List Char), content.length = c →
      pollRaw c content = (c, [])) ∧
    (∀ (c : Nat) (content : List Char), c < content.length →
      pollRaw c content = (content.length, content.drop c)) ∧
    (∀ (c : Nat) (content : List Char) b, b ∈ (processNewAlerts c content).2 →
      b.isEmpty = false) ∧
    (∀ (c : Nat) (content t : List Char), c ≤ content.length →
      (pollRaw c content).2 ++ (pollRaw (pollRaw c content).1 (content ++ t)).2 =
        (content ++ t).drop c) := by
  have hcaseEq : ∀ (c : Nat) (content : List Char), content.length = c →
      pollRaw c content = (c, []) := by
    intro c content h
    simp [pollRaw, h]
  have hcaseLt : ∀ (c : Nat) (content : List Char), c < content.length →
      pollRaw c content = (content.length, content.drop c) := by
    intro c content h
    have h1 : ¬ content.length < c := Nat.lt_asymm h
    have h2 : (content.length == c) = false := by simp [Nat.ne_of_gt h]
    simp [pollRaw, h1, h2]
  refine ⟨?_, hcaseEq, hcaseLt, ?_, ?_⟩
  · intro c content h
    simp [pollRaw, h]
  · intro c content b hb
    have : b ∈ ((splitBlank (pollRaw c content).2).map pyStrip).filter
        (fun x => !x.isEmpty) := hb
    simpa using (List.mem_filter.mp this).2
  · intro c content t hc
    rcases Nat.lt_or_ge c content.length with h | h
    · rw [hcaseLt c content h]
      cases t with
      | nil =>
        rw [hcaseEq content.length (content ++ []) (by simp)]
        simp [List.drop_append_of_le_length hc]
      | cons x xs =>
        have hlt : content.length < (content ++ x :: xs).length := by
          simp
        rw [hcaseLt content.length (content ++ x :: xs) hlt]
        rw [List.drop_left, List.drop_append_of_le_length hc]
    · have hceq : content.length = c := Nat.le_antisymm h hc
      rw [hcaseEq c content hceq]
      cases t with
      | nil =>
        rw [hcaseEq c (content ++ []) (by simp [hceq])]
        simp [← hceq, List.drop_length]
      | cons x xs =>
        have hlt : c < (content ++ x :: xs).length := by
          simp [← hceq]
        rw [hcaseLt c (content ++ x :: xs) hlt]
        simp

/-- Witness for C6 on concrete content: after reading "A\n\nB" from cursor
0, a second poll of the grown file "A\n\nB\n\nC" delivers only the
appended bytes. -/
theorem tail_reader_poll_contract_witness :
    (pollRaw 0 ("A\n\nB".toList)).2 ++
        (pollRaw (pollRaw 0 ("A\n\nB".toList)).1 ("A\n\nB".toList ++ "\n\nC".toList)).2 =
      ("A\n\nB".toList ++ "\n\nC".toList).drop 0 ∧
    pollRaw 4 ("A\n\nB".toList) = (4, []) ∧
    pollRaw 7 ("A\n\nB".toList) = pollRaw 0 ("A\n\nB".toList) := by
  refine ⟨tail_reader_poll_contract.2.2.2.2 0 ("A\n\nB".toList) ("\n\nC".toList) (by decide),
    tail_reader_poll_contract.2.1 4 ("A\n\nB".toList) (by decide),
    tail_reader_poll_contract.1 7 ("A\n\nB".toList) (by decide)⟩

/-! ### Parser totality and malformed-block skipping, C10 -/

lemma parseStage1_ips (lines : List (List Char)) (a : SnortAlert) :
    (parseStage1 lines a).sourceIp = a.sourceIp ∧
    (parseStage1 lines a).destIp = a.destIp ∧
    (parseStage1 lines a).rawLog = a.rawLog := by
  unfold parseStage1
  cases searchL alertAt (lines.headD []) with
  | none => exact ⟨rfl, rfl, rfl⟩
  | some p =>
    obtain ⟨sid, sig⟩ := p
    dsimp only
    split <;> exact ⟨rfl, rfl, rfl⟩

lemma parseStage2_ips (lines : List (List Char)) (a : SnortAlert) :
    (parseStage2 lines a).sourceIp = a.sourceIp ∧
    (parseStage2 lines a).destIp = a.destIp ∧
    (parseStage2 lines a).rawLog = a.rawLog := by
  unfold parseStage2
  cases lines.get? 1 with
  | none => exact ⟨rfl, rfl, rfl⟩
  | some l1 =>
    dsimp only
    cases searchL classAt l1 with
    | none => exact ⟨rfl, rfl, rfl⟩
    | some p =>
      obtain ⟨cls, pri⟩ := p
      exact ⟨rfl, rfl, rfl⟩

lemma parseStage3_rawLog (lines : List (List Char)) (a : SnortAlert) :
    (parseStage3 lines a).rawLog = a.rawLog := by
  unfold parseStage3
  cases lines.get? 2 with
  | none => rfl
  | some l2 =>
    dsimp only
    cases searchL ipAt l2 with
    | none => rfl
    | some m => rfl

lemma parseStage3_ips_of_no_match (lines : List (List Char)) (a : SnortAlert)
    (h : lines.get? 2 = none ∨ ∃ l2, lines.get? 2 = some l2 ∧ searchL ipAt l2 = none) :
    (parseStage3 lines a).sourceIp = a.sourceIp ∧ (parseStage3 lines a).destIp = a.destIp := by
  unfold parseStage3
  rcases h with h | ⟨l2, h2, hip⟩
  · rw [h]
    exact ⟨rfl, rfl⟩
  · rw [h2]
    dsimp only
    rw [hip]
    exact ⟨rfl, rfl⟩

/-- C10: parsing is total — for every input string the parser returns
normally, retaining the raw block; a block without a matching IP/port line
yields unset IPs; a record with an unset source IP is non-viable; and the
per-cycle loop drops exactly the non-viable blocks while processing every
viable block in order, so one malformed alert never halts the stream. -/
theorem parse_total_and_malformed_skipped :
    (∀ s : String, (parseSnortAlert s).rawLog = s) ∧
    (∀ s : String,
      ((splitNl (pyStrip s.toList)).get? 2 = none ∨
        ∃ l2, (splitNl (pyStrip s.toList)).get? 2 = some l2 ∧ searchL ipAt l2 = none) →
      (parseSnortAlert s).sourceIp = none ∧ (parseSnortAlert s).destIp = none) ∧
    (∀ a : SnortAlert, a.sourceIp = none → viableThreat (toCybercareThreat a) = false) ∧
    (∀ bs : List (List Char),
      cycleThreats bs =
        (bs.filter (fun b =>
          viableThreat (toCybercareThreat (parseSnortAlert (String.mk b))))).map
          (fun b => toCybercareThreat (parseSnortAlert (String.mk b)))) := by
  refine ⟨?_, ?_, ?_, ?_⟩
  · intro s
    unfold parseSnortAlert
    rw [parseStage3_rawLog, (parseStage2_ips _ _).2.2, (parseStage1_ips _ _).2.2]
  · intro s h
    unfold parseSnortAlert
    have h3 := parseStage3_ips_of_no_match (splitNl (pyStrip s.toList))
      (parseStage2 (splitNl (pyStrip s.toList))
        (parseStage1 (splitNl (pyStrip s.toList)) { rawLog := s })) h
    have h2 := parseStage2_ips (splitNl (pyStrip s.toList))
      (parseStage1 (splitNl (pyStrip s.toList)) { rawLog := s })
    have h1 := parseStage1_ips (splitNl (pyStrip s.toList)) ({ rawLog := s } : SnortAlert)
    exact ⟨by rw [h3.1, h2.1, h1.1], by rw [h3.2, h2.2.1, h1.2.1]⟩
  · intro a h
    simp [viableThreat, toCybercareThreat, truthyS, h]
  · intro bs
    induction bs with
    | nil => rfl
    | cons b bs ih =>
      by_cases hv : viableThreat (toCybercareThreat (parseSnortAlert (String.mk b))) = true
      · simp [cycleThreats, hv, ih]
      · simp only [Bool.not_eq_true] at hv
        simp [cycleThreats, hv, ih]

/-- Witness for C10: a block with no third line parses with IPs unset and a
cycle containing it still delivers the surrounding viable blocks. -/
theorem parse_total_and_malformed_skipped_witness :
    (parseSnortAlert "only a header line").sourceIp = none ∧
    (parseSnortAlert "only a header line").rawLog = "only a header line" ∧
    (cycleThreats ["only a header line".toList, scenarioBlock.toList]).length = 1 := by
  refine ⟨(parse_total_and_malformed_skipped.2.1 "only a header line"
      (Or.inl (by decide))).1,
    parse_total_and_malformed_skipped.1 "only a header line", ?_⟩
  decide

/-! ### Row-counting lemmas for the upsert claims -/

lemma countP_map_id_pres (l : List ThreatRow) (f : ThreatRow → ThreatRow)
    (hf : ∀ r, (f r).id = r.id) (i : String) :
    (l.map f).countP (fun r => r.id == i) = l.countP (fun r => r.id == i) := by
  rw [List.countP_map]
  exact List.countP_congr (fun x _ => by simp [Function.comp, hf x])

lemma countP_id_one (l : List ThreatRow) (i : String)
    (hnodup : (l.map ThreatRow.id).Nodup) (r0 : ThreatRow) (hr0 : r0 ∈ l)
    (hid : r0.id = i) :
    l.countP (fun r => r.id == i) = 1 := by
  have hmem : i ∈ l.map ThreatRow.id := List.mem_map.mpr ⟨r0, hr0, hid⟩
  have h1 : (l.map ThreatRow.id).count i = 1 := List.count_eq_one_of_mem hnodup hmem
  have h2 : (l.map ThreatRow.id).count i = l.countP (fun r => r.id == i) := by
    show (l.map ThreatRow.id).countP (· == i) = _
    rw [List.countP_map]
    rfl
  rw [← h2]
  exact h1

lemma countP_filter_ne (l : List ThreatRow) (i : String) :
    (l.filter (fun r => r.id != i)).countP (fun r => r.id == i) = 0 := by
  apply List.countP_eq_zero.mpr
  intro x hx
  have h2 : (x.id == i) = false := by
    simpa [bne] using (List.mem_filter.mp hx).2
  simp [h2]

lemma length_filter_ne_add (l : List ThreatRow) (i : String) :
    (l.filter (fun r => r.id != i)).length + l.countP (fun r => r.id == i) = l.length := by
  induction l with
  | nil => rfl
  | cons x xs ih =>
    by_cases h : (x.id == i) = true
    · have hb : (x.id != i) = false := by simp [bne, h]
      simp only [List.filter_cons, hb, List.countP_cons, h, Bool.false_eq_true, if_false,
        if_true, List.length_cons]
      omega
    · have h' : (x.id == i) = false := by
        cases hx : (x.id == i)
        · rfl
        · exact absurd hx h
      have hb : (x.id != i) = true := by simp [bne, h']
      simp only [List.filter_cons, hb, List.countP_cons, h', Bool.false_eq_true, if_false,
        if_true, List.length_cons]
      omega

lemma row_eq_of_nodup_id (l : List ThreatRow) (hnodup : (l.map ThreatRow.id).Nodup)
    (x y : ThreatRow) (hx : x ∈ l) (hy : y ∈ l) (h : x.id = y.id) : x = y :=
  List.inj_on_of_nodup_map hnodup hx hy h

lemma storeBatch_single (now : String) (ep : Nat) (hs : String → Int) (t : ThreatData)
    (db : DBState) (sip : String) (hsip : t.sourceIp = some sip) :
    storeBatch now ep hs [t] db =
      some ([t.id.getD (genBatchId ep hs sip)],
        { db with
            threats := insertOrReplace (batchRow now t (t.id.getD (genBatchId ep hs sip)) sip) db.threats }) := by
  simp [storeBatch, storeBatchAux, hsip]

/-! ### Upsert semantics, C1 -/

lemma storeThreat_update (now : String) (t : ThreatData) (db : DBState) (i : String)
    (ht : t.id = some i) (r' : ThreatRow)
    (hfind : db.threats.find? (fun r => r.id == i) = some r') :
    (storeThreat now t db).2.threats =
      db.threats.map (fun r => if r.id == i then updThreat t r else r) := by
  simp only [storeThreat, ht, hfind]
  rfl

/-- The records of the concrete C1 run: same id, different behavior. -/
def recA : ThreatData := { id := some "t1", sourceIp := some "1.2.3.4", behavior := some "dos" }

def recB : ThreatData :=
  { id := some "t1", sourceIp := some "1.2.3.4", behavior := some "port_scan" }

/-- C1 counterexample: store `t1` via `store_threat` at time T0, then store
the same id via `store_batch` at time T1: exactly one row remains and its
behavior is the last write, but its `creation_time` is T1, the batch write
time — `INSERT OR REPLACE` does not preserve the original creation time. -/
theorem upsert_creation_time_counterexample :
    ((storeThreat "T0" recA { threats := [], attempts := [] }).2).threats.map
        (fun r => (r.id, r.creationTime, r.behavior)) = [("t1", "T0", some "dos")] ∧
    (storeBatch "T1" 0 (fun _ => 0) [recB]
        (storeThreat "T0" recA { threats := [], attempts := [] }).2).map
      (fun p => p.2.threats.map (fun r => (r.id, r.creationTime, r.behavior))) =
      some [("t1", "T1", some "port_scan")] ∧
    ("T1" : String) ≠ "T0" := by
  refine ⟨by decide, by decide, by decide⟩

/-- C1 amended: upserting an existing id leaves exactly one row with that id
whose mutable fields equal the last write, via both paths; the original
creation time is preserved by `store_threat`'s UPDATE branch, but the batch
path (`INSERT OR REPLACE`) resets `creation_time` to the time of the batch
write. -/
theorem upsert_amended (now : String) (t : ThreatData) (db : DBState) (i : String)
    (r0 : ThreatRow) (hnodup : (db.threats.map ThreatRow.id).Nodup)
    (hr0 : r0 ∈ db.threats) (hid : r0.id = i) (ht : t.id = some i) :
    ((storeThreat now t db).2.threats.countP (fun r => r.id == i) = 1 ∧
     (storeThreat now t db).2.threats.length = db.threats.length ∧
     (∀ r ∈ (storeThreat now t db).2.threats, r.id = i →
        r.behavior = some (t.behavior.getD "") ∧ r.creationTime = r0.creationTime)) ∧
    (∀ (ep : Nat) (hs : String → Int) (sip : String), t.sourceIp = some sip →
      ∃ db', storeBatch now ep hs [t] db = some ([i], db') ∧
        db'.threats.countP (fun r => r.id == i) = 1 ∧
        db'.threats.length = db.threats.length ∧
        (∀ r ∈ db'.threats, r.id = i →
          r.behavior = t.behavior ∧ r.creationTime = now)) := by
  have hfindS : (db.threats.find? (fun r => r.id == i)).isSome :=
    List.find?_isSome.mpr ⟨r0, hr0, by simp [hid]⟩
  obtain ⟨r', hr'⟩ := Option.isSome_iff_exists.mp hfindS
  have hthreats := storeThreat_update now t db i ht r' hr'
  have hfid : ∀ r : ThreatRow,
      ((fun r => if r.id == i then updThreat t r else r) r).id = r.id := by
    intro r
    by_cases h : (r.id == i) = true
    · simp [h, updThreat]
    · simp [h]
  refine ⟨⟨?_, ?_, ?_⟩, ?_⟩
  · rw [hthreats, countP_map_id_pres _ _ hfid,
      countP_id_one db.threats i hnodup r0 hr0 hid]
  · rw [hthreats, List.length_map]
  · intro r hr hri
    rw [hthreats, List.mem_map] at hr
    obtain ⟨x, hx, rfl⟩ := hr
    by_cases hcond : (x.id == i) = true
    · rw [if_pos hcond]
      refine ⟨rfl, ?_⟩
      have hxi : x.id = i := beq_iff_eq.mp hcond
      have hxr0 : x = r0 :=
        row_eq_of_nodup_id db.threats hnodup x r0 hx hr0 (hxi.trans hid.symm)
      rw [hxr0]
      rfl
    · rw [if_neg hcond] at hri
      exact absurd (beq_iff_eq.mpr hri) hcond
  · intro ep hs sip hsip
    have hsb : storeBatch now ep hs [t] db =
        some ([i],
          { db with threats := insertOrReplace (batchRow now t i sip) db.threats }) := by
      rw [storeBatch_single now ep hs t db sip hsip, ht]
      rfl
    refine ⟨_, hsb, ?_, ?_, ?_⟩
    · show (db.threats.filter (fun x => x.id != i) ++
          [batchRow now t i sip]).countP (fun r => r.id == i) = 1
      rw [List.countP_append, countP_filter_ne]
      simp [batchRow]
    · show (db.threats.filter (fun x => x.id != i) ++
          [batchRow now t i sip]).length = db.threats.length
      have hc1 := countP_id_one db.threats i hnodup r0 hr0 hid
      have hl := length_filter_ne_add db.threats i
      rw [List.length_append]
      simp only [List.length_cons, List.length_nil]
      omega
    · intro r hr hri
      have hr2 : r ∈ db.threats.filter (fun x => x.id != i) ++ [batchRow now t i sip] := hr
      rcases List.mem_append.mp hr2 with hleft | hright
      · have hne : (r.id != i) = true := (List.mem_filter.mp hleft).2
        rw [hri] at hne
        simp [bne] at hne
      · have : r = batchRow now t i sip := by
          simpa using hright
        rw [this]
        exact ⟨rfl, rfl⟩

/-- Witness for C1 on a concrete store: the `store_threat` path preserves
creation time T0 while the batch path resets it to T2. -/
theorem upsert_amended_witness :
    ((storeThreat "T2" recB
        (storeThreat "T0" recA { threats := [], attempts := [] }).2).2.threats.countP
      (fun r => r.id == "t1") = 1) ∧
    (∀ r ∈ (storeThreat "T2" recB
        (storeThreat "T0" recA { threats := [], attempts := [] }).2).2.threats,
      r.id = "t1" → r.behavior = some "port_scan" ∧ r.creationTime = "T0") ∧
    (∃ db', storeBatch "T2" 0 (fun _ => 0) [recB]
        (storeThreat "T0" recA { threats := [], attempts := [] }).2 = some (["t1"], db') ∧
      ∀ r ∈ db'.threats, r.id = "t1" →
        r.behavior = some "port_scan" ∧ r.creationTime = "T2") := by
  have hmem : (storeThreat "T0" recA { threats := [], attempts := [] }).2.threats =
      [insThreat "T0" recA] := rfl
  have h := upsert_amended "T2" recB
    (storeThreat "T0" recA { threats := [], attempts := [] }).2 "t1"
    (insThreat "T0" recA) (by rw [hmem]; decide)
    (by rw [hmem]; exact List.mem_singleton_self _) rfl rfl
  refine ⟨h.1.1, ?_, ?_⟩
  · intro r hr hri
    have := h.1.2.2 r hr hri
    exact ⟨this.1, this.2⟩
  · obtain ⟨db', hsb, _, _, hprops⟩ := h.2 0 (fun _ => 0) "1.2.3.4" rfl
    exact ⟨db', hsb, fun r hr hri => (hprops r hr hri).imp (fun hb => hb) (fun hc => hc)⟩

/-! ### Retry sweep, C3 -/

/-- Store of the C3 failing input: one unsent threat `t1` that has already
failed three delivery attempts, with the default `retry_limit = 3`. -/
def retryDb : DBState :=
  { threats := [sampleRow],
    attempts :=
      [{ threatId := "t1", attemptTime := "N1", success := false,
         errorMessage := some "HTTP 500: server error" },
       { threatId := "t1", attemptTime := "N2", success := false,
         errorMessage := some "HTTP 500: server error" },
       { threatId := "t1", attemptTime := "N3", success := false,
         errorMessage := some "HTTP 500: server error" }] }

/-- C3 (code bug): the retry limit is never enforced. The `threats` schema
has no `retry_count` column, so `'retry_count' in threat` is false for every
fetched row and no record is ever excluded or marked permanently failed —
for every store and every limit, the sweep hands the oldest unsent record to
`send_alert` regardless of how often it has already failed; moreover
`DatabaseConnector` defines neither `update_retry_count` nor
`mark_as_permanently_failed`, so the call after the send raises
`AttributeError` and aborts the rest of the cycle.  At the concrete failing
input (one unsent record with three failed attempts, limit 3) the sweep
still attempts the record. -/
theorem retry_limit_never_enforced :
    threatsColumns.contains "retry_count" = false ∧
    dbConnectorMethods.contains "update_retry_count" = false ∧
    dbConnectorMethods.contains "mark_as_permanently_failed" = false ∧
    (∀ (retryLimit : Nat) (outcomes : String → HttpOutcome) (now : String) (db : DBState),
      (retrySweepCycle retryLimit outcomes now db).markedFailedIds = []) ∧
    (∀ (retryLimit : Nat) (outcomes : String → HttpOutcome) (now : String) (db : DBState),
      (retrySweepCycle retryLimit outcomes now db).attemptedIds =
        ((getUnsentThreats 50 db).take 1).map ThreatRow.id) ∧
    (retrySweepCycle 3 (fun _ => .response 500 (.err "Expecting value") "server error") "N4" retryDb).attemptedIds =
      ["t1"] ∧
    (retrySweepCycle 3 (fun _ => .response 500 (.err "Expecting value") "server error") "N4" retryDb).raisedAttrError =
      true := by
  have hc : "retry_count" ∉ threatsColumns := by decide
  have hu : "update_retry_count" ∉ dbConnectorMethods := by decide
  refine ⟨by decide, by decide, by decide, ?_, ?_, by decide, by decide⟩
  · intro retryLimit outcomes now db
    unfold retrySweepCycle
    cases getUnsentThreats 50 db with
    | nil => rfl
    | cons t ts => simp [retrySweepAux, hc, hu]
  · intro retryLimit outcomes now db
    unfold retrySweepCycle
    cases getUnsentThreats 50 db with
    | nil => rfl
    | cons t ts => simp [retrySweepAux, hc, hu]

/-! ### Record id provenance, C9 -/

/-- C9 counterexample: the scenario block flows through parse, classify and
build with both IPs present, yet the built record carries no id at all —
`to_cybercare_threat` never generates one. -/
theorem builder_emits_no_id_counterexample :
    viableThreat (toCybercareThreat (parseSnortAlert scenarioBlock)) = true ∧
    (toCybercareThreat (parseSnortAlert scenarioBlock)).id = none := by
  refine ⟨by decide, rfl⟩

/-- C9 amended: the builder (`to_cybercare_threat`) emits no id; an id is
assigned only on the batch storage path, where `store_batch` preserves a
caller-supplied id (so upsert-by-id applies to it) and otherwise derives
`threat_<epoch>_<hash(source_ip)>` — which is not collision-free; the
heuristic severity of any record lies in {NORMAL, LOW, MEDIUM, HIGH}. -/
theorem threat_id_provenance_amended :
    (∀ a : SnortAlert, (toCybercareThreat a).id = none) ∧
    (∀ (now : String) (ep : Nat) (hs : String → Int) (t : ThreatData) (db : DBState)
      (sip : String), t.sourceIp = some sip →
      ∃ db', storeBatch now ep hs [t] db =
          some ([t.id.getD (genBatchId ep hs sip)], db') ∧
        ∃ r ∈ db'.threats, r.id = t.id.getD (genBatchId ep hs sip)) ∧
    (∀ d : ThreatData,
      basicThreatAnalysis d ∈ (["NORMAL", "LOW", "MEDIUM", "HIGH"] : List String)) := by
  refine ⟨fun a => rfl, ?_, ?_⟩
  · intro now ep hs t db sip hsip
    refine ⟨_, storeBatch_single now ep hs t db sip hsip, ?_⟩
    refine ⟨batchRow now t (t.id.getD (genBatchId ep hs sip)) sip, ?_, rfl⟩
    show _ ∈ db.threats.filter (fun x => x.id != t.id.getD (genBatchId ep hs sip)) ++
      [batchRow now t (t.id.getD (genBatchId ep hs sip)) sip]
    exact List.mem_append_right _ (List.mem_singleton_self _)
  · intro d
    unfold basicThreatAnalysis
    dsimp only
    split
    · simp
    · split
      · simp
      · split <;> simp

/-- Witness for C9: a record with a supplied id keeps it through
`store_batch`, and one without gets the generated epoch/hash id. -/
theorem threat_id_provenance_amended_witness :
    (toCybercareThreat (parseSnortAlert scenarioBlock)).id = none ∧
    (∃ db', storeBatch "T1" 7 (fun _ => 9) [recA] { threats := [], attempts := [] } =
        some (["t1"], db') ∧ ∃ r ∈ db'.threats, r.id = "t1") ∧
    (∃ db', storeBatch "T1" 7 (fun _ => 9)
          [{ recA with id := none }] { threats := [], attempts := [] } =
        some (["threat_7_9"], db') ∧ ∃ r ∈ db'.threats, r.id = "threat_7_9") := by
  refine ⟨threat_id_provenance_amended.1 (parseSnortAlert scenarioBlock), ?_, ?_⟩
  · exact threat_id_provenance_amended.2.1 "T1" 7 (fun _ => 9) recA
      { threats := [], attempts := [] } "1.2.3.4" rfl
  · exact threat_id_provenance_amended.2.1 "T1" 7 (fun _ => 9) { recA with id := none }
      { threats := [], attempts := [] } "1.2.3.4" rfl

end SentinelAI
